import Mathlib

/-!
Verification development for the ChatappAI server core: the in-memory
conversation/message/API-key store (`server/storage.ts`, class `MemStorage`),
the multi-provider adapter (`AIProviderService` in `services/ai-providers.ts`)
and the Express route handlers (`server/routes.ts`).

Modelling conventions:
* Each JavaScript `Map<string, T>` (keyed by the entity's `id`) is a
  `List T` in insertion order; `Map.set` updates in place when the id is
  already present and appends otherwise (`mapSet`), `Map.delete` removes the
  entry and reports whether it existed (`mapDelete`), `Map.values()` is the
  list itself.
* `randomUUID()` and `new Date()` are passed in explicitly as `String` ids
  and `Nat` timestamps; freshness of a generated id is a hypothesis.
* Provider identifiers are `String`s, exactly as in the drizzle schema
  (`provider: text(...)`); the zod enum `AIProvider` is the list
  `AIProvider_options`.
* The outbound network call of each provider adapter is abstracted by an
  `Except String Upstream` argument: `.error` is a transport/provider throw,
  `.ok` carries the fields of the upstream reply that the adapter reads.
-/

/-- One entry of the `users` map (shared/schema.ts `users` table). -/
structure User where
  id : String
  username : String
  password : String
  deriving Repr, DecidableEq

/-- One entry of the `conversations` map. `userId` is nullable in the schema
(`userId: varchar("user_id").references(...)` without `notNull`). -/
structure Conversation where
  id : String
  title : String
  userId : Option String
  provider : String
  model : String
  createdAt : Nat
  updatedAt : Nat
  deriving Repr, DecidableEq

/-- Token usage statistics of a normalized provider reply. -/
structure Usage where
  promptTokens : Nat
  completionTokens : Nat
  totalTokens : Nat
  deriving Repr, DecidableEq

/-- The `metadata` jsonb column of a message: the routes store either
`{ images }` (user turn) or `{ usage }` (assistant turn). -/
inductive MessageMetadata where
  | images (imgs : List String)
  | usage (u : Option Usage)
  deriving Repr, DecidableEq

/-- One entry of the `messages` map. -/
structure Message where
  id : String
  conversationId : String
  role : String
  content : String
  metadata : Option MessageMetadata
  createdAt : Nat
  deriving Repr, DecidableEq

/-- One entry of the `apiKeys` map. -/
structure ApiKey where
  id : String
  userId : String
  provider : String
  keyValue : String
  isActive : Bool
  createdAt : Nat
  deriving Repr, DecidableEq

/-- The four maps of `MemStorage`. -/
structure StoreState where
  users : List User
  conversations : List Conversation
  messages : List Message
  apiKeys : List ApiKey
  deriving Repr, DecidableEq

/-- The empty `MemStorage`. -/
def StoreState.empty : StoreState := ⟨[], [], [], []⟩

/-- `Map.set k v` over an id-keyed value list: replace in place when the id
exists, append otherwise. -/
def mapSet (key : α → String) (l : List α) (v : α) : List α :=
  if l.any (fun e => key e == key v) then
    l.map (fun e => if key e == key v then v else e)
  else
    l ++ [v]

/-- `Map.delete k`: whether the key existed, and the map without it. -/
def mapDelete (key : α → String) (l : List α) (k : String) : Bool × List α :=
  (l.any (fun e => key e == k), l.filter (fun e => key e != k))

namespace MemStorage

/-- `getConversation(id)`. -/
def getConversation (st : StoreState) (id : String) : Option Conversation :=
  st.conversations.find? (fun c => c.id == id)

/-- Input of `createConversation` after route-side validation. -/
structure InsertConversation where
  title : String
  userId : Option String
  provider : String
  model : String
  deriving Repr, DecidableEq

/-- `createConversation(conversation)`: fresh id, `createdAt = updatedAt = now`,
`userId: conversation.userId || null`. -/
def createConversation (st : StoreState) (ins : InsertConversation)
    (id : String) (now : Nat) : Conversation × StoreState :=
  let newConv : Conversation :=
    { id := id, title := ins.title, userId := ins.userId,
      provider := ins.provider, model := ins.model,
      createdAt := now, updatedAt := now }
  (newConv, { st with conversations := mapSet Conversation.id st.conversations newConv })

/-- `updateConversation(id, { updatedAt: ... })` as invoked by the
send-message route: merge the update, then overwrite `updatedAt` with `now`. -/
def updateConversationTouch (st : StoreState) (id : String) (now : Nat) :
    Option Conversation × StoreState :=
  match st.conversations.find? (fun c => c.id == id) with
  | none => (none, st)
  | some existing =>
    let updated := { existing with updatedAt := now }
    (some updated, { st with conversations := mapSet Conversation.id st.conversations updated })

/-- `getMessagesByConversationId(conversationId)`: filter by owner, sort by
`createdAt` ascending. -/
def getMessagesByConversationId (st : StoreState) (conversationId : String) : List Message :=
  (st.messages.filter (fun m => m.conversationId == conversationId)).mergeSort
    (fun a b => a.createdAt ≤ b.createdAt)

/-- Input of `createMessage`. -/
structure InsertMessage where
  conversationId : String
  role : String
  content : String
  metadata : Option MessageMetadata
  deriving Repr, DecidableEq

/-- `createMessage(message)`: fresh id, `metadata: message.metadata || null`,
`createdAt = now`. -/
def createMessage (st : StoreState) (ins : InsertMessage)
    (id : String) (now : Nat) : Message × StoreState :=
  let newMessage : Message :=
    { id := id, conversationId := ins.conversationId, role := ins.role,
      content := ins.content, metadata := ins.metadata, createdAt := now }
  (newMessage, { st with messages := mapSet Message.id st.messages newMessage })

/-- `deleteMessagesByConversationId(conversationId)`: remove every owned
message, always return `true`. -/
def deleteMessagesByConversationId (st : StoreState) (conversationId : String) :
    Bool × StoreState :=
  (true, { st with messages := st.messages.filter (fun m => m.conversationId != conversationId) })

/-- `deleteConversation(id)`: delete owned messages first, then the
conversation; `Map.delete` reports whether the conversation existed. -/
def deleteConversation (st : StoreState) (id : String) : Bool × StoreState :=
  let st1 := (deleteMessagesByConversationId st id).2
  let (existed, convs) := mapDelete Conversation.id st1.conversations id
  (existed, { st1 with conversations := convs })

/-- `getApiKeysByUserId(userId)`. -/
def getApiKeysByUserId (st : StoreState) (userId : String) : List ApiKey :=
  st.apiKeys.filter (fun k => k.userId == userId)

/-- `getApiKey(userId, provider)`: the first key of the pair with
`isActive` truthy. -/
def getApiKey (st : StoreState) (userId provider : String) : Option ApiKey :=
  st.apiKeys.find? (fun k => k.userId == userId && k.provider == provider && k.isActive)

/-- Input of `setApiKey` after route-side validation. -/
structure InsertApiKey where
  userId : String
  provider : String
  keyValue : String
  deriving Repr, DecidableEq

/-- `setApiKey(apiKey)`: deactivate every key of the (userId, provider) pair
in place, then insert a fresh key with `isActive: true`. -/
def setApiKey (st : StoreState) (ins : InsertApiKey)
    (id : String) (now : Nat) : ApiKey × StoreState :=
  let deactivated := st.apiKeys.map (fun k =>
    if k.userId == ins.userId && k.provider == ins.provider then
      { k with isActive := false }
    else k)
  let newKey : ApiKey :=
    { id := id, userId := ins.userId, provider := ins.provider,
      keyValue := ins.keyValue, isActive := true, createdAt := now }
  (newKey, { st with apiKeys := mapSet ApiKey.id deactivated newKey })

/-- `deleteApiKey(userId, provider)`: delete the active key, if any. -/
def deleteApiKey (st : StoreState) (userId provider : String) : Bool × StoreState :=
  match getApiKey st userId provider with
  | some key =>
    let (existed, keys) := mapDelete ApiKey.id st.apiKeys key.id
    (existed, { st with apiKeys := keys })
  | none => (false, st)

end MemStorage

/-- The zod enum `AIProvider` of shared/schema.ts. -/
def AIProvider_options : List String :=
  ["openai", "anthropic", "google", "huggingface", "cerebras", "sambanova",
   "mistral", "cohere", "xai", "perplexity", "together", "fireworks"]

/-- `AIProvider.parse`: the identity on enum members, a throw otherwise. -/
def AIProvider_parse (s : String) : Option String :=
  if s ∈ AIProvider_options then some s else none

/-- The `DEFAULT_MODELS` table of services/ai-providers.ts; `none` models the
`undefined` of an out-of-table lookup. -/
def DEFAULT_MODELS (provider : String) : Option String :=
  if provider == "openai" then some "gpt-4o"
  else if provider == "anthropic" then some "claude-sonnet-4-20250514"
  else if provider == "google" then some "gemini-2.5-flash"
  else if provider == "huggingface" then some "meta-llama/Llama-3.2-11B-Vision-Instruct"
  else if provider == "cerebras" then some "llama3.1-8b"
  else if provider == "sambanova" then some "Meta-Llama-3.1-8B-Instruct"
  else if provider == "mistral" then some "mistral-large-latest"
  else if provider == "cohere" then some "command-r-plus"
  else if provider == "xai" then some "grok-beta"
  else if provider == "perplexity" then some "llama-3.1-sonar-large-128k-online"
  else if provider == "together" then some "meta-llama/Meta-Llama-3.1-8B-Instruct-Turbo"
  else if provider == "fireworks" then some "accounts/fireworks/models/llama-v3p1-8b-instruct"
  else none

/-- One turn of the history handed to `AIProviderService.sendMessage`:
`{ role: 'user' | 'assistant', content, images? }`. -/
structure ChatTurn where
  role : String
  content : String
  images : Option (List String)
  deriving Repr, DecidableEq

/-- The normalized reply shape `AIResponse`. -/
structure AIResponse where
  content : String
  model : String
  provider : String
  usage : Option Usage
  deriving Repr, DecidableEq

/-- The fields of a raw upstream reply that the adapters read back. -/
structure Upstream where
  content : String
  usage : Option Usage
  deriving Repr, DecidableEq

namespace AIProviderService

/-- A `{ role, content }` element of an outbound OpenAI-style or Mistral
message array. -/
structure WireMsg where
  role : String
  content : String
  deriving Repr, DecidableEq

/-- One part of an OpenAI multimodal content array. -/
inductive OpenAIPart where
  | text (t : String)
  | imageUrl (url : String)
  deriving Repr, DecidableEq

/-- An element of the `openaiMessages` array built by `sendOpenAIMessage`:
plain text, or a content array when the turn carries images. -/
inductive OpenAIMsg where
  | plain (role content : String)
  | multi (role : String) (parts : List OpenAIPart)
  deriving Repr, DecidableEq

/-- The message array built by `sendOpenAIMessage` (images embedded as
base64 data URLs). -/
def buildOpenAIMessages (messages : List ChatTurn) : List OpenAIMsg :=
  messages.map (fun msg =>
    match msg.images with
    | some imgs =>
      if imgs.length > 0 then
        .multi msg.role (.text msg.content ::
          imgs.map (fun img => .imageUrl ("data:image/jpeg;base64," ++ img)))
      else .plain msg.role msg.content
    | none => .plain msg.role msg.content)

/-- The outbound request of the OpenAI-compatible adapters (Cerebras,
SambaNova, xAI, Perplexity, Together, Fireworks): each maps every turn to
`{ role, content }` and posts `{ model, messages, max_tokens: 1000 }`. -/
structure OpenAICompatRequest where
  model : String
  messages : List WireMsg
  maxTokens : Nat
  deriving Repr, DecidableEq

/-- `sendCerebrasMessage`'s request body. -/
def buildCerebrasRequest (messages : List ChatTurn) (model : String) : OpenAICompatRequest :=
  { model := model,
    messages := messages.map (fun msg => ⟨msg.role, msg.content⟩),
    maxTokens := 1000 }

/-- `sendSambanovaMessage`'s request body. -/
def buildSambanovaRequest (messages : List ChatTurn) (model : String) : OpenAICompatRequest :=
  { model := model,
    messages := messages.map (fun msg => ⟨msg.role, msg.content⟩),
    maxTokens := 1000 }

/-- `sendXAIMessage`'s request body. -/
def buildXAIRequest (messages : List ChatTurn) (model : String) : OpenAICompatRequest :=
  { model := model,
    messages := messages.map (fun msg => ⟨msg.role, msg.content⟩),
    maxTokens := 1000 }

/-- `sendPerplexityMessage`'s request body. -/
def buildPerplexityRequest (messages : List ChatTurn) (model : String) : OpenAICompatRequest :=
  { model := model,
    messages := messages.map (fun msg => ⟨msg.role, msg.content⟩),
    maxTokens := 1000 }

/-- `sendTogetherMessage`'s request body. -/
def buildTogetherRequest (messages : List ChatTurn) (model : String) : OpenAICompatRequest :=
  { model := model,
    messages := messages.map (fun msg => ⟨msg.role, msg.content⟩),
    maxTokens := 1000 }

/-- `sendFireworksMessage`'s request body. -/
def buildFireworksRequest (messages : List ChatTurn) (model : String) : OpenAICompatRequest :=
  { model := model,
    messages := messages.map (fun msg => ⟨msg.role, msg.content⟩),
    maxTokens := 1000 }

/-- `sendHuggingFaceMessage`'s `inputs` string:
turns joined as `Human:`/`Assistant:` lines plus a trailing `Assistant:`. -/
def buildHuggingFaceInput (messages : List ChatTurn) : String :=
  String.intercalate "\n" (messages.map (fun msg =>
    if msg.role == "user" then "Human: " ++ msg.content
    else "Assistant: " ++ msg.content)) ++ "\nAssistant:"

/-- `sendMistralMessage`'s messages array. -/
def buildMistralMessages (messages : List ChatTurn) : List WireMsg :=
  messages.map (fun msg => ⟨msg.role, msg.content⟩)

/-- A `chatHistory` element of a Cohere request (`USER`/`CHATBOT`). -/
structure CohereHistoryMsg where
  role : String
  message : String
  deriving Repr, DecidableEq

/-- The Cohere request body. -/
structure CohereRequest where
  model : String
  message : String
  chatHistory : Option (List CohereHistoryMsg)
  deriving Repr, DecidableEq

/-- `sendCohereMessage`'s request body: last turn as `message`, earlier turns
as `chatHistory` (or absent when empty). `messages[messages.length - 1]` is
`undefined` on an empty history, so reading `.content` throws: `none`. -/
def buildCohereRequest (messages : List ChatTurn) (model : String) : Option CohereRequest :=
  match messages.getLast? with
  | none => none
  | some lastMessage =>
    let chatHistory := messages.dropLast.map (fun msg =>
      (⟨if msg.role == "user" then "USER" else "CHATBOT", msg.content⟩ : CohereHistoryMsg))
    some { model := model, message := lastMessage.content,
           chatHistory := if chatHistory.length > 0 then some chatHistory else none }

/-- The model selection `model || DEFAULT_MODELS[provider]`: JS `||` falls
back to the table entry when `model` is `undefined` **or** the empty string,
both being falsy. `none` results only from an out-of-table lookup with an
absent or empty model argument. -/
def selectModel (model : Option String) (provider : String) : Option String :=
  match model with
  | some m => if m = "" then DEFAULT_MODELS provider else some m
  | none => DEFAULT_MODELS provider

/-- `sendMessage(provider, apiKey, messages, model?)`: choose
`model || DEFAULT_MODELS[provider]` (see `selectModel` for the JS falsy
semantics of `||`) and dispatch on the provider string; the default switch
case throws `Unsupported provider`. The upstream network round-trip is
abstracted by `up` (`.error` = transport/provider throw). OpenAI, Anthropic
and the six OpenAI-compatible adapters copy the upstream usage block into
the reply; Google, Hugging Face and Cohere return no usage. Every branch
stamps its own provider literal and the selected model. The `.getD ""`
fallback on the model is unreachable: every branch guard implies the
`DEFAULT_MODELS` lookup is populated, so `selectModel` is `some` there. -/
def sendMessage (provider : String) (_apiKey : String) (messages : List ChatTurn)
    (model : Option String) (up : Except String Upstream) : Except String AIResponse :=
  let selectedModel := (selectModel model provider).getD ""
  if provider == "openai" then
    up.map (fun u => ⟨u.content, selectedModel, "openai", u.usage⟩)
  else if provider == "anthropic" then
    up.map (fun u => ⟨u.content, selectedModel, "anthropic", u.usage⟩)
  else if provider == "google" then
    up.map (fun u => ⟨u.content, selectedModel, "google", none⟩)
  else if provider == "huggingface" then
    up.map (fun u => ⟨u.content, selectedModel, "huggingface", none⟩)
  else if provider == "cerebras" then
    up.map (fun u => ⟨u.content, selectedModel, "cerebras", u.usage⟩)
  else if provider == "sambanova" then
    up.map (fun u => ⟨u.content, selectedModel, "sambanova", u.usage⟩)
  else if provider == "mistral" then
    up.map (fun u => ⟨u.content, selectedModel, "mistral", u.usage⟩)
  else if provider == "cohere" then
    match buildCohereRequest messages selectedModel with
    | none => .error "TypeError: cannot read content of undefined"
    | some _ => up.map (fun u => ⟨u.content, selectedModel, "cohere", none⟩)
  else if provider == "xai" then
    up.map (fun u => ⟨u.content, selectedModel, "xai", u.usage⟩)
  else if provider == "perplexity" then
    up.map (fun u => ⟨u.content, selectedModel, "perplexity", u.usage⟩)
  else if provider == "together" then
    up.map (fun u => ⟨u.content, selectedModel, "together", u.usage⟩)
  else if provider == "fireworks" then
    up.map (fun u => ⟨u.content, selectedModel, "fireworks", u.usage⟩)
  else
    .error ("Unsupported provider: " ++ provider)

end AIProviderService

namespace Routes

/-- The mock authenticated user of `registerRoutes`. -/
def mockUserId : String := "user-1"

/-- The fixed 40-bullet masking suffix of the api-key routes. -/
def bulletMask : String := "••••••••••••••••••••••••••••••••••••••••"

/-- `key.keyValue.substring(0, 8) + '••…•'`. -/
def maskKeyValue (keyValue : String) : String :=
  keyValue.take 8 ++ bulletMask

/-- Body of `POST /api/conversations` after `insertConversationSchema.parse`.
The drizzle-zod insert schema types `provider` as a plain string (the column
is `text("provider").notNull()`), so validation constrains it to be a string
only — any provider value that is a string passes. -/
structure ConversationBody where
  title : String
  provider : String
  model : String
  deriving Repr, DecidableEq

/-- Result of `POST /api/conversations`. -/
inductive CreateConversationResult where
  | ok (conversation : Conversation)
  | invalid
  deriving Repr, DecidableEq

/-- `POST /api/conversations`: parse `{...body, userId: mockUserId}` against
`insertConversationSchema` (provider checked as string only) and create. -/
def createConversationHandler (st : StoreState) (body : ConversationBody)
    (id : String) (now : Nat) : CreateConversationResult × StoreState :=
  let (conversation, st') := MemStorage.createConversation st
    ⟨body.title, some mockUserId, body.provider, body.model⟩ id now
  (.ok conversation, st')

/-- Body of `POST /api/api-keys` after `insertApiKeySchema.parse` (provider is
again only checked to be a string). -/
structure ApiKeyBody where
  provider : String
  keyValue : String
  deriving Repr, DecidableEq

/-- Result of `POST /api/api-keys`: the stored key with masked `keyValue`. -/
inductive SetApiKeyResult where
  | ok (maskedKey : ApiKey)
  | invalid
  deriving Repr, DecidableEq

/-- `POST /api/api-keys`: validate, `setApiKey`, reply with the new key whose
`keyValue` is masked. -/
def setApiKeyHandler (st : StoreState) (body : ApiKeyBody)
    (id : String) (now : Nat) : SetApiKeyResult × StoreState :=
  let (apiKey, st') := MemStorage.setApiKey st ⟨mockUserId, body.provider, body.keyValue⟩ id now
  (.ok { apiKey with keyValue := maskKeyValue apiKey.keyValue }, st')

/-- `GET /api/api-keys`: list the mock user's keys, masking each `keyValue`. -/
def getApiKeysHandler (st : StoreState) : List ApiKey :=
  (MemStorage.getApiKeysByUserId st mockUserId).map
    (fun key => { key with keyValue := maskKeyValue key.keyValue })

/-- Body of `POST /api/conversations/:id/messages` after
`ChatMessageSchema.parse` (attachments are ignored by the handler). -/
structure ChatMessageBody where
  content : String
  images : Option (List String)
  deriving Repr, DecidableEq

/-- Result of `POST /api/conversations/:id/messages`. -/
inductive SendMessageResult where
  | notFound
  | apiKeyNotConfigured (provider : String)
  | sendFailed
  | ok (userMessage assistantMessage : Message)
  deriving Repr, DecidableEq

/-- A stored message mapped to a history turn
(`role: msg.role, content: msg.content, images: msg.metadata?.images`). -/
def toChatTurn (msg : Message) : ChatTurn :=
  { role := msg.role, content := msg.content,
    images := match msg.metadata with
      | some (.images imgs) => some imgs
      | _ => none }

/-- `POST /api/conversations/:id/messages`: look up the conversation (404 when
absent or not the mock user's), load the active key (400 when none), persist
the user's turn, rebuild the history, call the adapter (a throw is caught as a
500 with the user message already committed), persist the assistant turn and
touch the conversation's `updatedAt`. `userMsgId`/`assistantMsgId` stand for
the two `randomUUID()` calls and `now1 ≤ now2 ≤ now3` for the successive
`new Date()` calls. -/
def sendMessageHandler (st : StoreState) (conversationId : String)
    (body : ChatMessageBody) (up : Except String Upstream)
    (userMsgId assistantMsgId : String) (now1 now2 now3 : Nat) :
    SendMessageResult × StoreState :=
  match MemStorage.getConversation st conversationId with
  | none => (.notFound, st)
  | some conversation =>
    if conversation.userId ≠ some mockUserId then (.notFound, st)
    else
      match MemStorage.getApiKey st mockUserId conversation.provider with
      | none => (.apiKeyNotConfigured conversation.provider, st)
      | some apiKey =>
        let (userMessage, st1) := MemStorage.createMessage st
          { conversationId := conversationId, role := "user", content := body.content,
            metadata := body.images.map (fun imgs => .images imgs) }
          userMsgId now1
        let chatHistory :=
          (MemStorage.getMessagesByConversationId st1 conversationId).map toChatTurn
        match AIProviderService.sendMessage conversation.provider apiKey.keyValue
            chatHistory (some conversation.model) up with
        | .error _ => (.sendFailed, st1)
        | .ok aiResponse =>
          let (assistantMessage, st2) := MemStorage.createMessage st1
            { conversationId := conversationId, role := "assistant",
              content := aiResponse.content, metadata := some (.usage aiResponse.usage) }
            assistantMsgId now2
          let st3 := (MemStorage.updateConversationTouch st2 conversationId now3).2
          (.ok userMessage assistantMessage, st3)

end Routes

/-! ## Helper lemmas -/

/-- Inserting under a fresh key is an append. -/
theorem mapSet_eq_append (key : α → String) (l : List α) (v : α)
    (h : ∀ e ∈ l, key e ≠ key v) : mapSet key l v = l ++ [v] := by
  unfold mapSet
  rw [if_neg]
  simp only [List.any_eq_true, beq_iff_eq, not_exists, not_and]
  exact fun e he => h e he

example :
    (MemStorage.deleteConversation StoreState.empty "c1").1 = false := by decide

example :
    AIProviderService.sendMessage "cohere" "k" [⟨"user", "hi", none⟩] none (.ok ⟨"yo", none⟩) =
      .ok ⟨"yo", "command-r-plus", "cohere", none⟩ := rfl

example :
    AIProviderService.sendMessage "bogus" "k" [] none (.ok ⟨"yo", none⟩) =
      .error "Unsupported provider: bogus" := rfl

example :
    (MemStorage.setApiKey StoreState.empty ⟨"user-1", "openai", "sk-zzz"⟩ "k1" 5).2.apiKeys =
      [⟨"k1", "user-1", "openai", "sk-zzz", true, 5⟩] := by decide

/-- C7: `deleteConversation(id)` deletes all messages owned by the
conversation and then the conversation itself, returning true exactly when
the conversation existed; `listMessages(id)` immediately afterwards is empty,
and a second `deleteConversation(id)` returns false rather than erroring. -/
theorem deleteConversation_spec (st : StoreState) (id : String) :
    ((MemStorage.deleteConversation st id).1 = true ↔
      (MemStorage.getConversation st id).isSome = true) ∧
    MemStorage.getMessagesByConversationId (MemStorage.deleteConversation st id).2 id = [] ∧
    (MemStorage.deleteConversation (MemStorage.deleteConversation st id).2 id).1 = false := by
  refine ⟨?_, ?_, ?_⟩
  · simp [MemStorage.deleteConversation, MemStorage.deleteMessagesByConversationId,
      MemStorage.getConversation, mapDelete, List.any_eq_true, List.find?_isSome]
  · simp only [MemStorage.deleteConversation, MemStorage.deleteMessagesByConversationId,
      MemStorage.getMessagesByConversationId, mapDelete]
    rw [List.filter_filter]
    have : ∀ m : Message, ((m.conversationId == id) && (m.conversationId != id)) = false := by
      intro m
      by_cases h : m.conversationId = id <;> simp [h]
    rw [List.filter_congr (fun m _ => this m), List.filter_false, List.mergeSort_nil]
  · simp only [MemStorage.deleteConversation, MemStorage.deleteMessagesByConversationId,
      mapDelete]
    rw [List.any_eq_false]
    intro c hc
    rw [List.mem_filter] at hc
    simp only [bne_iff_ne, ne_eq] at hc
    simp [hc.2]

/-- C8: `listMessages(conversationId)` returns exactly the stored messages of
that conversation (a permutation of the owner-filtered message map) sorted in
non-decreasing `createdAt` order, whatever the insertion order was. -/
theorem getMessagesByConversationId_sorted_complete (st : StoreState) (cid : String) :
    (MemStorage.getMessagesByConversationId st cid).Pairwise
      (fun a b => a.createdAt ≤ b.createdAt) ∧
    (MemStorage.getMessagesByConversationId st cid).Perm
      (st.messages.filter (fun m => m.conversationId == cid)) := by
  constructor
  · have h := @List.sorted_mergeSort Message
      (fun a b : Message => a.createdAt ≤ b.createdAt)
      (fun a b c hab hbc => by
        simp only [decide_eq_true_eq] at *
        exact Nat.le_trans hab hbc)
      (fun a b => by
        simp only [Bool.or_eq_true, decide_eq_true_eq]
        exact Nat.le_total a.createdAt b.createdAt)
      (st.messages.filter (fun m => m.conversationId == cid))
    exact h.imp (fun hab => by simpa using hab)
  · exact List.mergeSort_perm _ _

/-- C6: every key in a `GET /api-keys` response is a stored key of the mock
user whose `keyValue` has been replaced by exactly its first 8 characters
followed by the fixed bullet mask; and the mask reveals nothing beyond those
8 characters — two secrets agreeing on their first 8 characters are masked
identically. -/
theorem getApiKeys_masks_secrets (st : StoreState) :
    (∀ k ∈ Routes.getApiKeysHandler st,
      ∃ orig ∈ st.apiKeys, orig.userId = Routes.mockUserId ∧
        k = { orig with keyValue := orig.keyValue.take 8 ++ Routes.bulletMask }) ∧
    (∀ s₁ s₂ : String, s₁.take 8 = s₂.take 8 →
      Routes.maskKeyValue s₁ = Routes.maskKeyValue s₂) := by
  constructor
  · intro k hk
    simp only [Routes.getApiKeysHandler, MemStorage.getApiKeysByUserId, List.mem_map,
      List.mem_filter, beq_iff_eq] at hk
    obtain ⟨orig, ⟨horig, huser⟩, hmask⟩ := hk
    exact ⟨orig, horig, huser, by rw [← hmask]; rfl⟩
  · intro s₁ s₂ h
    simp [Routes.maskKeyValue, h]

/-- Witness for C6 at a concrete store holding one active OpenAI key. -/
theorem getApiKeys_masks_secrets_witness :
    (∃ orig ∈ (⟨[], [], [],
        [⟨"k1", "user-1", "openai", "sk-secret-0123456789", true, 3⟩]⟩ : StoreState).apiKeys,
      orig.userId = Routes.mockUserId ∧
        (⟨"k1", "user-1", "openai", Routes.maskKeyValue "sk-secret-0123456789", true, 3⟩ : ApiKey) =
          { orig with keyValue := orig.keyValue.take 8 ++ Routes.bulletMask }) ∧
    Routes.maskKeyValue "sk-abcde-FIRST-SECRET" = Routes.maskKeyValue "sk-abcde-OTHER-SECRET" :=
  ⟨(getApiKeys_masks_secrets _).1 _ (by decide),
   (getApiKeys_masks_secrets ⟨[], [], [], []⟩).2 "sk-abcde-FIRST-SECRET" "sk-abcde-OTHER-SECRET"
     (by decide)⟩

/-! ## Adapter dispatch lemmas (one per switch branch) -/

theorem sendMessage_openai_eq (apiKey : String) (messages : List ChatTurn)
    (model : Option String) (up : Except String Upstream) :
    AIProviderService.sendMessage "openai" apiKey messages model up =
      up.map (fun u => ⟨u.content, (AIProviderService.selectModel model "openai").getD "", "openai", u.usage⟩) := rfl

theorem sendMessage_anthropic_eq (apiKey : String) (messages : List ChatTurn)
    (model : Option String) (up : Except String Upstream) :
    AIProviderService.sendMessage "anthropic" apiKey messages model up =
      up.map (fun u =>
        ⟨u.content, (AIProviderService.selectModel model "anthropic").getD "", "anthropic", u.usage⟩) := rfl

theorem sendMessage_google_eq (apiKey : String) (messages : List ChatTurn)
    (model : Option String) (up : Except String Upstream) :
    AIProviderService.sendMessage "google" apiKey messages model up =
      up.map (fun u => ⟨u.content, (AIProviderService.selectModel model "google").getD "", "google", none⟩) := rfl

theorem sendMessage_huggingface_eq (apiKey : String) (messages : List ChatTurn)
    (model : Option String) (up : Except String Upstream) :
    AIProviderService.sendMessage "huggingface" apiKey messages model up =
      up.map (fun u =>
        ⟨u.content, (AIProviderService.selectModel model "huggingface").getD "",
         "huggingface", none⟩) := rfl

theorem sendMessage_cerebras_eq (apiKey : String) (messages : List ChatTurn)
    (model : Option String) (up : Except String Upstream) :
    AIProviderService.sendMessage "cerebras" apiKey messages model up =
      up.map (fun u => ⟨u.content, (AIProviderService.selectModel model "cerebras").getD "", "cerebras", u.usage⟩) := rfl

theorem sendMessage_sambanova_eq (apiKey : String) (messages : List ChatTurn)
    (model : Option String) (up : Except String Upstream) :
    AIProviderService.sendMessage "sambanova" apiKey messages model up =
      up.map (fun u =>
        ⟨u.content, (AIProviderService.selectModel model "sambanova").getD "", "sambanova", u.usage⟩) := rfl

theorem sendMessage_mistral_eq (apiKey : String) (messages : List ChatTurn)
    (model : Option String) (up : Except String Upstream) :
    AIProviderService.sendMessage "mistral" apiKey messages model up =
      up.map (fun u =>
        ⟨u.content, (AIProviderService.selectModel model "mistral").getD "", "mistral", u.usage⟩) := rfl

theorem sendMessage_cohere_eq (apiKey : String) (messages : List ChatTurn)
    (model : Option String) (up : Except String Upstream) :
    AIProviderService.sendMessage "cohere" apiKey messages model up =
      match AIProviderService.buildCohereRequest messages ((AIProviderService.selectModel model "cohere").getD "") with
      | none => .error "TypeError: cannot read content of undefined"
      | some _ => up.map (fun u =>
          ⟨u.content, (AIProviderService.selectModel model "cohere").getD "", "cohere", none⟩) := rfl

theorem sendMessage_xai_eq (apiKey : String) (messages : List ChatTurn)
    (model : Option String) (up : Except String Upstream) :
    AIProviderService.sendMessage "xai" apiKey messages model up =
      up.map (fun u => ⟨u.content, (AIProviderService.selectModel model "xai").getD "", "xai", u.usage⟩) := rfl

theorem sendMessage_perplexity_eq (apiKey : String) (messages : List ChatTurn)
    (model : Option String) (up : Except String Upstream) :
    AIProviderService.sendMessage "perplexity" apiKey messages model up =
      up.map (fun u =>
        ⟨u.content, (AIProviderService.selectModel model "perplexity").getD "",
         "perplexity", u.usage⟩) := rfl

theorem sendMessage_together_eq (apiKey : String) (messages : List ChatTurn)
    (model : Option String) (up : Except String Upstream) :
    AIProviderService.sendMessage "together" apiKey messages model up =
      up.map (fun u =>
        ⟨u.content, (AIProviderService.selectModel model "together").getD "",
         "together", u.usage⟩) := rfl

theorem sendMessage_fireworks_eq (apiKey : String) (messages : List ChatTurn)
    (model : Option String) (up : Except String Upstream) :
    AIProviderService.sendMessage "fireworks" apiKey messages model up =
      up.map (fun u =>
        ⟨u.content, (AIProviderService.selectModel model "fireworks").getD "",
         "fireworks", u.usage⟩) := rfl

/-- A provider outside the zod enum has no `DEFAULT_MODELS` entry. -/
theorem DEFAULT_MODELS_eq_none (p : String) (hp : p ∉ AIProvider_options) :
    DEFAULT_MODELS p = none := by
  simp only [AIProvider_options, List.mem_cons, List.not_mem_nil, or_false, not_or] at hp
  obtain ⟨h1, h2, h3, h4, h5, h6, h7, h8, h9, h10, h11, h12⟩ := hp
  simp [DEFAULT_MODELS, h1, h2, h3, h4, h5, h6, h7, h8, h9, h10, h11, h12]

/-- The default switch case: a provider outside the enum throws. -/
theorem sendMessage_unsupported (p : String) (hp : p ∉ AIProvider_options)
    (apiKey : String) (messages : List ChatTurn) (model : Option String)
    (up : Except String Upstream) :
    AIProviderService.sendMessage p apiKey messages model up =
      .error ("Unsupported provider: " ++ p) := by
  simp only [AIProvider_options, List.mem_cons, List.not_mem_nil, or_false, not_or] at hp
  obtain ⟨h1, h2, h3, h4, h5, h6, h7, h8, h9, h10, h11, h12⟩ := hp
  simp [AIProviderService.sendMessage, h1, h2, h3, h4, h5, h6, h7, h8, h9, h10, h11, h12]

/-- Extracting the provider and model fields out of a successful mapped
upstream result. -/
theorem provider_model_of_map_eq {P M : String}
    {usage : Upstream → Option Usage} {up : Except String Upstream} {r : AIResponse}
    (h : up.map (fun u => (⟨u.content, M, P, usage u⟩ : AIResponse)) = .ok r) :
    r.provider = P ∧ r.model = M := by
  cases up with
  | error e => exact Except.noConfusion h
  | ok u =>
    cases h
    exact ⟨rfl, rfl⟩

/-- For a provider with a `DEFAULT_MODELS` entry, the JS-falsy model
selection yields the explicit model when it is a non-empty string and the
default when the argument is absent or empty. -/
theorem selectModel_getD (model : Option String) (provider d : String)
    (hd : DEFAULT_MODELS provider = some d) :
    (AIProviderService.selectModel model provider).getD "" =
      (if model.getD "" = "" then d else model.getD "") := by
  cases model with
  | none => simp [AIProviderService.selectModel, hd]
  | some m =>
    by_cases hm : m = "" <;> simp [AIProviderService.selectModel, hd, hm]

/-- C1 counterexample: the claim asserts the reply model equals the explicit
model argument whenever one is given, but with the explicit (yet empty)
model argument `some ""` — accepted by `insertConversationSchema`, whose
`model` is a plain string — the JS `model || DEFAULT_MODELS[provider]`
treats `""` as falsy and the reply carries the provider default "gpt-4o",
not the given argument `""`. -/
theorem sendMessage_empty_model_counterexample :
    AIProviderService.sendMessage "openai" "sk-live" [⟨"user", "hi", none⟩] (some "")
        (.ok ⟨"yo", none⟩) =
      .ok ⟨"yo", "gpt-4o", "openai", none⟩ ∧
    ("gpt-4o" : String) ≠ "" :=
  ⟨rfl, by decide⟩

/-- C1 (amended): whenever `sendMessage` returns a normalized reply for a
supported provider (one with a `DEFAULT_MODELS` entry), the `provider` field
of the reply equals the input provider, and its `model` field is the
explicit model argument when a non-empty one is given, or that fixed
per-provider default model when the argument is omitted or is the empty
string (the falsy fallback of the JS `||`). -/
theorem sendMessage_provider_model (provider d apiKey : String)
    (messages : List ChatTurn) (model : Option String) (up : Except String Upstream)
    (r : AIResponse)
    (hd : DEFAULT_MODELS provider = some d)
    (h : AIProviderService.sendMessage provider apiKey messages model up = .ok r) :
    r.provider = provider ∧
    r.model = (if model.getD "" = "" then d else model.getD "") := by
  have hmem : provider ∈ AIProvider_options := by
    by_contra hp
    rw [DEFAULT_MODELS_eq_none provider hp] at hd
    exact Option.noConfusion hd
  simp only [AIProvider_options, List.mem_cons, List.not_mem_nil, or_false] at hmem
  rcases hmem with rfl | rfl | rfl | rfl | rfl | rfl | rfl | rfl | rfl | rfl | rfl | rfl
  · rw [sendMessage_openai_eq] at h
    exact ⟨(provider_model_of_map_eq h).1,
      (provider_model_of_map_eq h).2.trans (selectModel_getD model "openai" d hd)⟩
  · rw [sendMessage_anthropic_eq] at h
    exact ⟨(provider_model_of_map_eq h).1,
      (provider_model_of_map_eq h).2.trans (selectModel_getD model "anthropic" d hd)⟩
  · rw [sendMessage_google_eq] at h
    exact ⟨(provider_model_of_map_eq h).1,
      (provider_model_of_map_eq h).2.trans (selectModel_getD model "google" d hd)⟩
  · rw [sendMessage_huggingface_eq] at h
    exact ⟨(provider_model_of_map_eq h).1,
      (provider_model_of_map_eq h).2.trans (selectModel_getD model "huggingface" d hd)⟩
  · rw [sendMessage_cerebras_eq] at h
    exact ⟨(provider_model_of_map_eq h).1,
      (provider_model_of_map_eq h).2.trans (selectModel_getD model "cerebras" d hd)⟩
  · rw [sendMessage_sambanova_eq] at h
    exact ⟨(provider_model_of_map_eq h).1,
      (provider_model_of_map_eq h).2.trans (selectModel_getD model "sambanova" d hd)⟩
  · rw [sendMessage_mistral_eq] at h
    exact ⟨(provider_model_of_map_eq h).1,
      (provider_model_of_map_eq h).2.trans (selectModel_getD model "mistral" d hd)⟩
  · rw [sendMessage_cohere_eq] at h
    cases hb : AIProviderService.buildCohereRequest messages
        ((AIProviderService.selectModel model "cohere").getD "") with
    | none => rw [hb] at h; exact Except.noConfusion h
    | some req =>
      rw [hb] at h
      exact ⟨(provider_model_of_map_eq h).1,
        (provider_model_of_map_eq h).2.trans (selectModel_getD model "cohere" d hd)⟩
  · rw [sendMessage_xai_eq] at h
    exact ⟨(provider_model_of_map_eq h).1,
      (provider_model_of_map_eq h).2.trans (selectModel_getD model "xai" d hd)⟩
  · rw [sendMessage_perplexity_eq] at h
    exact ⟨(provider_model_of_map_eq h).1,
      (provider_model_of_map_eq h).2.trans (selectModel_getD model "perplexity" d hd)⟩
  · rw [sendMessage_together_eq] at h
    exact ⟨(provider_model_of_map_eq h).1,
      (provider_model_of_map_eq h).2.trans (selectModel_getD model "together" d hd)⟩
  · rw [sendMessage_fireworks_eq] at h
    exact ⟨(provider_model_of_map_eq h).1,
      (provider_model_of_map_eq h).2.trans (selectModel_getD model "fireworks" d hd)⟩

/-- Witness for the amended C1: an Anthropic call with the model argument
omitted yields the fixed Anthropic default model. -/
theorem sendMessage_provider_model_witness :
    (⟨"hello", "claude-sonnet-4-20250514", "anthropic", none⟩ : AIResponse).provider =
        "anthropic" ∧
    (⟨"hello", "claude-sonnet-4-20250514", "anthropic", none⟩ : AIResponse).model =
        "claude-sonnet-4-20250514" :=
  sendMessage_provider_model "anthropic" "claude-sonnet-4-20250514" "sk-ant" []
    none (.ok ⟨"hello", none⟩) ⟨"hello", "claude-sonnet-4-20250514", "anthropic", none⟩
    rfl rfl

/-- With a fresh generated id, `setApiKey` deactivates the pair's keys in
place and appends the new active key. -/
theorem setApiKey_apiKeys (st : StoreState) (ins : MemStorage.InsertApiKey)
    (id : String) (now : Nat) (hfresh : ∀ k ∈ st.apiKeys, k.id ≠ id) :
    (MemStorage.setApiKey st ins id now).2.apiKeys =
      st.apiKeys.map (fun k =>
        if k.userId == ins.userId && k.provider == ins.provider then
          { k with isActive := false }
        else k) ++ [(MemStorage.setApiKey st ins id now).1] := by
  simp only [MemStorage.setApiKey]
  rw [mapSet_eq_append]
  intro e he
  simp only [List.mem_map] at he
  obtain ⟨k, hk, he⟩ := he
  have hid : e.id = k.id := by
    rw [← he]
    by_cases hc : (k.userId == ins.userId && k.provider == ins.provider) = true <;>
      simp [hc]
  rw [hid]
  exact hfresh k hk

/-- C2: after any `setApiKey` call (with a fresh generated id) exactly one
stored key of the (userId, provider) pair is active, namely the newly
inserted one, and every previously existing key of the pair is still present
in the store with `isActive` false. -/
theorem setApiKey_one_active (st : StoreState) (ins : MemStorage.InsertApiKey)
    (id : String) (now : Nat) (hfresh : ∀ k ∈ st.apiKeys, k.id ≠ id) :
    ((MemStorage.setApiKey st ins id now).2.apiKeys.filter
        (fun k => (k.userId == ins.userId && k.provider == ins.provider) && k.isActive)) =
      [(MemStorage.setApiKey st ins id now).1] ∧
    (∀ k ∈ st.apiKeys, k.userId = ins.userId → k.provider = ins.provider →
      { k with isActive := false } ∈ (MemStorage.setApiKey st ins id now).2.apiKeys) := by
  have heq := setApiKey_apiKeys st ins id now hfresh
  constructor
  · rw [heq, List.filter_append]
    have h1 : (st.apiKeys.map (fun k =>
        if k.userId == ins.userId && k.provider == ins.provider then
          { k with isActive := false }
        else k)).filter
        (fun k => (k.userId == ins.userId && k.provider == ins.provider) && k.isActive) = [] := by
      rw [List.filter_eq_nil_iff]
      intro a ha
      simp only [List.mem_map] at ha
      obtain ⟨k, hk, rfl⟩ := ha
      by_cases hc : (k.userId == ins.userId && k.provider == ins.provider) = true
      · simp [hc]
      · rw [Bool.not_eq_true] at hc
        simp [hc]
    rw [h1]
    simp [MemStorage.setApiKey]
  · intro k hk hu hp
    rw [heq, List.mem_append]
    left
    rw [List.mem_map]
    exact ⟨k, hk, by simp [hu, hp]⟩

/-- Witness for C2: two successive `setApiKey` calls for ("user-1",
"openai"); the second leaves exactly its own key active and the first key
present but inactive. -/
theorem setApiKey_one_active_witness :
    ((MemStorage.setApiKey (MemStorage.setApiKey StoreState.empty
            ⟨"user-1", "openai", "sk-first"⟩ "k1" 5).2
          ⟨"user-1", "openai", "sk-second"⟩ "k2" 7).2.apiKeys.filter
        (fun k => (k.userId == "user-1" && k.provider == "openai") && k.isActive)) =
      [(MemStorage.setApiKey (MemStorage.setApiKey StoreState.empty
            ⟨"user-1", "openai", "sk-first"⟩ "k1" 5).2
          ⟨"user-1", "openai", "sk-second"⟩ "k2" 7).1] ∧
    ({ (⟨"k1", "user-1", "openai", "sk-first", true, 5⟩ : ApiKey) with isActive := false } ∈
      (MemStorage.setApiKey (MemStorage.setApiKey StoreState.empty
            ⟨"user-1", "openai", "sk-first"⟩ "k1" 5).2
          ⟨"user-1", "openai", "sk-second"⟩ "k2" 7).2.apiKeys) :=
  ⟨(setApiKey_one_active (MemStorage.setApiKey StoreState.empty
        ⟨"user-1", "openai", "sk-first"⟩ "k1" 5).2
      ⟨"user-1", "openai", "sk-second"⟩ "k2" 7 (by decide)).1,
   (setApiKey_one_active (MemStorage.setApiKey StoreState.empty
        ⟨"user-1", "openai", "sk-first"⟩ "k1" 5).2
      ⟨"user-1", "openai", "sk-second"⟩ "k2" 7 (by decide)).2
     ⟨"k1", "user-1", "openai", "sk-first", true, 5⟩ (by decide) rfl rfl⟩

/-- C10: `setApiKey` is frame-preserving: the users, conversations and
messages maps are untouched; every pre-existing key of the same
(userId, provider) pair survives with every field except `isActive`
unchanged; and every key of a different pair is entirely unchanged. -/
theorem setApiKey_frame (st : StoreState) (ins : MemStorage.InsertApiKey)
    (id : String) (now : Nat) (hfresh : ∀ k ∈ st.apiKeys, k.id ≠ id) :
    (MemStorage.setApiKey st ins id now).2.users = st.users ∧
    (MemStorage.setApiKey st ins id now).2.conversations = st.conversations ∧
    (MemStorage.setApiKey st ins id now).2.messages = st.messages ∧
    (∀ k ∈ st.apiKeys, k.userId = ins.userId → k.provider = ins.provider →
      (⟨k.id, k.userId, k.provider, k.keyValue, false, k.createdAt⟩ : ApiKey) ∈
        (MemStorage.setApiKey st ins id now).2.apiKeys) ∧
    (∀ k ∈ st.apiKeys, ¬(k.userId = ins.userId ∧ k.provider = ins.provider) →
      k ∈ (MemStorage.setApiKey st ins id now).2.apiKeys) := by
  have heq := setApiKey_apiKeys st ins id now hfresh
  refine ⟨rfl, rfl, rfl, ?_, ?_⟩
  · intro k hk hu hp
    rw [heq, List.mem_append]
    left
    rw [List.mem_map]
    exact ⟨k, hk, by simp [hu, hp]⟩
  · intro k hk hne
    rw [heq, List.mem_append]
    left
    rw [List.mem_map]
    refine ⟨k, hk, ?_⟩
    have hc : (k.userId == ins.userId && k.provider == ins.provider) = false := by
      rw [Bool.and_eq_false_iff]
      by_cases hu : k.userId = ins.userId
      · right
        rw [beq_eq_false_iff_ne]
        exact fun hp => hne ⟨hu, hp⟩
      · left
        rw [beq_eq_false_iff_ne]
        exact hu
    simp [hc]

/-- Witness for C10 at a store holding one key of the target pair, one key
of a different pair, and a nonempty conversation map. -/
theorem setApiKey_frame_witness :
    (MemStorage.setApiKey
        (⟨[], [⟨"c1", "T", some "user-1", "openai", "gpt-4o", 1, 1⟩], [],
          [⟨"k1", "user-1", "openai", "sk-old", true, 1⟩,
           ⟨"k2", "user-1", "mistral", "sk-other", true, 2⟩]⟩ : StoreState)
        ⟨"user-1", "openai", "sk-new"⟩ "k3" 9).2.conversations =
      [⟨"c1", "T", some "user-1", "openai", "gpt-4o", 1, 1⟩] ∧
    (⟨"k1", "user-1", "openai", "sk-old", false, 1⟩ : ApiKey) ∈
      (MemStorage.setApiKey
        (⟨[], [⟨"c1", "T", some "user-1", "openai", "gpt-4o", 1, 1⟩], [],
          [⟨"k1", "user-1", "openai", "sk-old", true, 1⟩,
           ⟨"k2", "user-1", "mistral", "sk-other", true, 2⟩]⟩ : StoreState)
        ⟨"user-1", "openai", "sk-new"⟩ "k3" 9).2.apiKeys ∧
    (⟨"k2", "user-1", "mistral", "sk-other", true, 2⟩ : ApiKey) ∈
      (MemStorage.setApiKey
        (⟨[], [⟨"c1", "T", some "user-1", "openai", "gpt-4o", 1, 1⟩], [],
          [⟨"k1", "user-1", "openai", "sk-old", true, 1⟩,
           ⟨"k2", "user-1", "mistral", "sk-other", true, 2⟩]⟩ : StoreState)
        ⟨"user-1", "openai", "sk-new"⟩ "k3" 9).2.apiKeys :=
  ⟨(setApiKey_frame
      (⟨[], [⟨"c1", "T", some "user-1", "openai", "gpt-4o", 1, 1⟩], [],
        [⟨"k1", "user-1", "openai", "sk-old", true, 1⟩,
         ⟨"k2", "user-1", "mistral", "sk-other", true, 2⟩]⟩ : StoreState)
      ⟨"user-1", "openai", "sk-new"⟩ "k3" 9 (by decide)).2.1,
   (setApiKey_frame
      (⟨[], [⟨"c1", "T", some "user-1", "openai", "gpt-4o", 1, 1⟩], [],
        [⟨"k1", "user-1", "openai", "sk-old", true, 1⟩,
         ⟨"k2", "user-1", "mistral", "sk-other", true, 2⟩]⟩ : StoreState)
      ⟨"user-1", "openai", "sk-new"⟩ "k3" 9 (by decide)).2.2.2.1
     ⟨"k1", "user-1", "openai", "sk-old", true, 1⟩ (by decide) rfl rfl,
   (setApiKey_frame
      (⟨[], [⟨"c1", "T", some "user-1", "openai", "gpt-4o", 1, 1⟩], [],
        [⟨"k1", "user-1", "openai", "sk-old", true, 1⟩,
         ⟨"k2", "user-1", "mistral", "sk-other", true, 2⟩]⟩ : StoreState)
      ⟨"user-1", "openai", "sk-new"⟩ "k3" 9 (by decide)).2.2.2.2
     ⟨"k2", "user-1", "mistral", "sk-other", true, 2⟩ (by decide) (by decide)⟩

/-- When the upstream call throws, no adapter branch can return a reply. -/
theorem sendMessage_up_error_not_ok (provider key : String) (msgs : List ChatTurn)
    (model : Option String) (e : String) (r : AIResponse)
    (h : AIProviderService.sendMessage provider key msgs model (.error e) = .ok r) :
    False := by
  by_cases hp : provider ∈ AIProvider_options
  · simp only [AIProvider_options, List.mem_cons, List.not_mem_nil, or_false] at hp
    rcases hp with rfl | rfl | rfl | rfl | rfl | rfl | rfl | rfl | rfl | rfl | rfl | rfl
    all_goals first
      | exact Except.noConfusion h
      | (rw [sendMessage_cohere_eq] at h
         split at h <;> exact Except.noConfusion h)
  · rw [sendMessage_unsupported provider hp] at h
    exact Except.noConfusion h

/-- C3 counterexample: a send-message request for a conversation whose
provider has no active key returns the provider-not-configured error with
the store unchanged — in particular the message map stays empty, so the
user's own turn is NOT persisted, contradicting the claimed partial state
(the key check at routes.ts:66-69 precedes `createMessage` at line 72). -/
theorem sendMessage_no_key_counterexample :
    Routes.sendMessageHandler
        (⟨[], [⟨"conv1", "Test", some "user-1", "openai", "gpt-4o", 0, 0⟩], [], []⟩ : StoreState)
        "conv1" ⟨"Hello", none⟩ (.ok ⟨"Hi there!", none⟩) "m1" "m2" 1 2 3 =
      (.apiKeyNotConfigured "openai",
        ⟨[], [⟨"conv1", "Test", some "user-1", "openai", "gpt-4o", 0, 0⟩], [], []⟩) ∧
    (Routes.sendMessageHandler
        (⟨[], [⟨"conv1", "Test", some "user-1", "openai", "gpt-4o", 0, 0⟩], [], []⟩ : StoreState)
        "conv1" ⟨"Hello", none⟩ (.ok ⟨"Hi there!", none⟩) "m1" "m2" 1 2 3).2.messages = [] :=
  ⟨rfl, rfl⟩

/-- C3 (amended): a send-message request for an owned conversation whose
provider has no active key fails with the provider-not-configured error and
leaves the store exactly as it was: no message — not even the user's own
turn — is persisted. -/
theorem sendMessage_no_key_rejects_without_mutation
    (st : StoreState) (conversationId : String) (body : Routes.ChatMessageBody)
    (up : Except String Upstream) (userMsgId assistantMsgId : String) (now1 now2 now3 : Nat)
    (conversation : Conversation)
    (hconv : MemStorage.getConversation st conversationId = some conversation)
    (howner : conversation.userId = some Routes.mockUserId)
    (hkey : MemStorage.getApiKey st Routes.mockUserId conversation.provider = none) :
    Routes.sendMessageHandler st conversationId body up userMsgId assistantMsgId now1 now2 now3 =
      (.apiKeyNotConfigured conversation.provider, st) := by
  simp only [Routes.sendMessageHandler, hconv, howner, ne_eq, not_true_eq_false, if_false, hkey]

/-- Witness for the amended C3 at a concrete one-conversation store. -/
theorem sendMessage_no_key_rejects_without_mutation_witness :
    Routes.sendMessageHandler
        (⟨[], [⟨"c9", "T", some "user-1", "mistral", "mistral-large-latest", 4, 4⟩], [],
          [⟨"k1", "user-1", "openai", "sk-live", true, 0⟩]⟩ : StoreState)
        "c9" ⟨"Hey", none⟩ (.ok ⟨"ok", none⟩) "m1" "m2" 5 6 7 =
      (.apiKeyNotConfigured "mistral",
        ⟨[], [⟨"c9", "T", some "user-1", "mistral", "mistral-large-latest", 4, 4⟩], [],
          [⟨"k1", "user-1", "openai", "sk-live", true, 0⟩]⟩) :=
  sendMessage_no_key_rejects_without_mutation
    (⟨[], [⟨"c9", "T", some "user-1", "mistral", "mistral-large-latest", 4, 4⟩], [],
      [⟨"k1", "user-1", "openai", "sk-live", true, 0⟩]⟩ : StoreState)
    "c9" ⟨"Hey", none⟩ (.ok ⟨"ok", none⟩) "m1" "m2" 5 6 7
    ⟨"c9", "T", some "user-1", "mistral", "mistral-large-latest", 4, 4⟩ rfl rfl rfl

/-- C4: when the provider adapter call throws after the user message has
been persisted, the handler returns the 500-class failure with exactly the
user's turn appended to the message map: the user message stays committed,
no assistant message is created, and the conversations map — hence the
conversation's `updatedAt` — is untouched. -/
theorem sendMessage_provider_failure_keeps_user_message
    (st : StoreState) (conversationId : String) (body : Routes.ChatMessageBody)
    (e : String) (userMsgId assistantMsgId : String) (now1 now2 now3 : Nat)
    (conversation : Conversation) (apiKey : ApiKey)
    (hconv : MemStorage.getConversation st conversationId = some conversation)
    (howner : conversation.userId = some Routes.mockUserId)
    (hkey : MemStorage.getApiKey st Routes.mockUserId conversation.provider = some apiKey)
    (hfresh : ∀ m ∈ st.messages, m.id ≠ userMsgId) :
    Routes.sendMessageHandler st conversationId body (.error e)
        userMsgId assistantMsgId now1 now2 now3 =
      (.sendFailed,
        { st with messages := st.messages ++
            [⟨userMsgId, conversationId, "user", body.content,
              body.images.map (fun imgs => .images imgs), now1⟩] }) := by
  simp only [Routes.sendMessageHandler, hconv, howner, ne_eq, not_true_eq_false, if_false, hkey,
    MemStorage.createMessage]
  split
  · rw [mapSet_eq_append Message.id st.messages _ (fun m hm => hfresh m hm)]
  · rename_i r heq
    exact absurd heq (fun heq => sendMessage_up_error_not_ok _ _ _ _ _ _ heq)

/-- Witness for C4: an OpenAI conversation with an active key whose upstream
call throws; the user turn is committed, nothing else changes. -/
theorem sendMessage_provider_failure_keeps_user_message_witness :
    Routes.sendMessageHandler
        (⟨[], [⟨"conv1", "Test", some "user-1", "openai", "gpt-4o", 0, 0⟩], [],
          [⟨"k1", "user-1", "openai", "sk-live", true, 0⟩]⟩ : StoreState)
        "conv1" ⟨"Hello", none⟩ (.error "ECONNRESET") "m1" "m2" 1 2 3 =
      (.sendFailed,
        ⟨[], [⟨"conv1", "Test", some "user-1", "openai", "gpt-4o", 0, 0⟩],
          [⟨"m1", "conv1", "user", "Hello", none, 1⟩],
          [⟨"k1", "user-1", "openai", "sk-live", true, 0⟩]⟩) :=
  sendMessage_provider_failure_keeps_user_message
    (⟨[], [⟨"conv1", "Test", some "user-1", "openai", "gpt-4o", 0, 0⟩], [],
      [⟨"k1", "user-1", "openai", "sk-live", true, 0⟩]⟩ : StoreState)
    "conv1" ⟨"Hello", none⟩ "ECONNRESET" "m1" "m2" 1 2 3
    ⟨"conv1", "Test", some "user-1", "openai", "gpt-4o", 0, 0⟩
    ⟨"k1", "user-1", "openai", "sk-live", true, 0⟩ rfl rfl rfl (by decide)

/-- C5 counterexample: `POST /api/conversations` with the unsupported
provider "bogus" is not rejected — `insertConversationSchema` validates
`provider` only as a string — and the store is mutated: the conversation is
created and persisted, contradicting reject-before-any-mutation. -/
theorem createConversation_unsupported_provider_counterexample :
    "bogus" ∉ AIProvider_options ∧
    Routes.createConversationHandler StoreState.empty ⟨"Test", "bogus", "m0"⟩ "c1" 5 =
      (.ok ⟨"c1", "Test", some "user-1", "bogus", "m0", 5, 5⟩,
        ⟨[], [⟨"c1", "Test", some "user-1", "bogus", "m0", 5, 5⟩], [], []⟩) :=
  ⟨by decide, rfl⟩

/-- C5 (amended): a provider outside the enum is rejected by
`AIProvider.parse` (used by PATCH /conversations/:id and
DELETE /api-keys/:provider) and by the adapter switch, but the two creating
endpoints validate `provider` only as a string: `POST /api/conversations`
succeeds and appends the conversation, `POST /api/api-keys` succeeds and
stores a new active key for the unsupported provider, and the adapter throws
`Unsupported provider` only when a send later reaches the dispatch. -/
theorem unsupported_provider_not_rejected (p : String) (hp : p ∉ AIProvider_options)
    (st : StoreState) (title model keyValue cid kid : String) (now : Nat)
    (hcfresh : ∀ c ∈ st.conversations, c.id ≠ cid)
    (hkfresh : ∀ k ∈ st.apiKeys, k.id ≠ kid) :
    Routes.createConversationHandler st ⟨title, p, model⟩ cid now =
      (.ok ⟨cid, title, some Routes.mockUserId, p, model, now, now⟩,
        { st with conversations := st.conversations ++
            [⟨cid, title, some Routes.mockUserId, p, model, now, now⟩] }) ∧
    (⟨kid, Routes.mockUserId, p, keyValue, true, now⟩ : ApiKey) ∈
      (Routes.setApiKeyHandler st ⟨p, keyValue⟩ kid now).2.apiKeys ∧
    AIProvider_parse p = none ∧
    (∀ key msgs model2 up, AIProviderService.sendMessage p key msgs model2 up =
      .error ("Unsupported provider: " ++ p)) := by
  refine ⟨?_, ?_, ?_, ?_⟩
  · simp only [Routes.createConversationHandler, MemStorage.createConversation]
    rw [mapSet_eq_append Conversation.id st.conversations _ (fun c hc => hcfresh c hc)]
  · have heq := setApiKey_apiKeys st ⟨Routes.mockUserId, p, keyValue⟩ kid now hkfresh
    simp only [Routes.setApiKeyHandler]
    rw [heq]
    exact List.mem_append_right _ (List.mem_singleton.mpr rfl)
  · simp only [AIProvider_parse, if_neg hp]
  · exact fun key msgs model2 up => sendMessage_unsupported p hp key msgs model2 up

/-- Witness for the amended C5 with provider "bogus" on the empty store. -/
theorem unsupported_provider_not_rejected_witness :
    Routes.createConversationHandler StoreState.empty ⟨"T", "bogus", "m"⟩ "c1" 5 =
      (.ok ⟨"c1", "T", some "user-1", "bogus", "m", 5, 5⟩,
        ⟨[], [⟨"c1", "T", some "user-1", "bogus", "m", 5, 5⟩], [], []⟩) ∧
    (⟨"k1", "user-1", "bogus", "sk-x", true, 5⟩ : ApiKey) ∈
      (Routes.setApiKeyHandler StoreState.empty ⟨"bogus", "sk-x"⟩ "k1" 5).2.apiKeys ∧
    AIProvider_parse "bogus" = none ∧
    AIProviderService.sendMessage "bogus" "sk-x" [] none (.ok ⟨"hi", none⟩) =
      .error ("Unsupported provider: " ++ "bogus") :=
  ⟨(unsupported_provider_not_rejected "bogus" (by decide) StoreState.empty
      "T" "m" "sk-x" "c1" "k1" 5 (by decide) (by decide)).1,
   (unsupported_provider_not_rejected "bogus" (by decide) StoreState.empty
      "T" "m" "sk-x" "c1" "k1" 5 (by decide) (by decide)).2.1,
   (unsupported_provider_not_rejected "bogus" (by decide) StoreState.empty
      "T" "m" "sk-x" "c1" "k1" 5 (by decide) (by decide)).2.2.1,
   (unsupported_provider_not_rejected "bogus" (by decide) StoreState.empty
      "T" "m" "sk-x" "c1" "k1" 5 (by decide) (by decide)).2.2.2
     "sk-x" [] none (.ok ⟨"hi", none⟩)⟩

/-- Erase the images field of a history turn (keep role and content). -/
def stripImages (m : ChatTurn) : ChatTurn := { m with images := none }

/-- Mapping a turn function that ignores images is invariant under
image-erasure of the history. -/
theorem map_congr_strip {β : Type _} (f : ChatTurn → β) (hf : ∀ m, f (stripImages m) = f m)
    {h₁ h₂ : List ChatTurn} (hs : h₁.map stripImages = h₂.map stripImages) :
    h₁.map f = h₂.map f := by
  have e : ∀ h : List ChatTurn, h.map f = (h.map stripImages).map f := by
    intro h
    rw [List.map_map]
    exact (List.map_congr_left (fun m _ => hf m)).symm
  rw [e h₁, e h₂, hs]

/-- The Cohere request depends only on the image-erased history. -/
theorem buildCohereRequest_congr {h₁ h₂ : List ChatTurn} (model : String)
    (hs : h₁.map stripImages = h₂.map stripImages) :
    AIProviderService.buildCohereRequest h₁ model =
      AIProviderService.buildCohereRequest h₂ model := by
  unfold AIProviderService.buildCohereRequest
  have hlast : h₁.getLast?.map stripImages = h₂.getLast?.map stripImages := by
    rw [← List.getLast?_map, ← List.getLast?_map, hs]
  have hmap :
      h₁.dropLast.map (fun msg =>
        (⟨if msg.role == "user" then "USER" else "CHATBOT", msg.content⟩ : AIProviderService.CohereHistoryMsg)) =
      h₂.dropLast.map (fun msg =>
        (⟨if msg.role == "user" then "USER" else "CHATBOT", msg.content⟩ : AIProviderService.CohereHistoryMsg)) :=
    map_congr_strip (fun msg =>
        (⟨if msg.role == "user" then "USER" else "CHATBOT", msg.content⟩ : AIProviderService.CohereHistoryMsg))
      (fun m => rfl)
      (by rw [List.map_dropLast, List.map_dropLast, hs])
  cases hl1 : h₁.getLast? with
  | none =>
    rw [hl1] at hlast
    cases hl2 : h₂.getLast? with
    | none => rfl
    | some last₂ => rw [hl2] at hlast; exact Option.noConfusion hlast
  | some last₁ =>
    rw [hl1] at hlast
    cases hl2 : h₂.getLast? with
    | none => rw [hl2] at hlast; exact Option.noConfusion hlast
    | some last₂ =>
      rw [hl2] at hlast
      have hstrip : stripImages last₁ = stripImages last₂ := by simpa using hlast
      have hcont : last₁.content = last₂.content := by
        have hc := congrArg ChatTurn.content hstrip
        simpa [stripImages] using hc
      simp only [hcont, hmap]

/-- C9: for the providers without image support (the six OpenAI-compatible
variants, Hugging Face, Mistral, Cohere) the outbound request is built from
role and content only: two histories that differ only in their images fields
produce identical requests, and the Cohere send (the only such adapter whose
control flow reads the history) does not fail because a turn carries images —
its outcome is identical on both histories. -/
theorem imageless_providers_ignore_images (h₁ h₂ : List ChatTurn)
    (model key : String) (up : Except String Upstream)
    (hs : h₁.map stripImages = h₂.map stripImages) :
    AIProviderService.buildCerebrasRequest h₁ model =
      AIProviderService.buildCerebrasRequest h₂ model ∧
    AIProviderService.buildSambanovaRequest h₁ model =
      AIProviderService.buildSambanovaRequest h₂ model ∧
    AIProviderService.buildXAIRequest h₁ model =
      AIProviderService.buildXAIRequest h₂ model ∧
    AIProviderService.buildPerplexityRequest h₁ model =
      AIProviderService.buildPerplexityRequest h₂ model ∧
    AIProviderService.buildTogetherRequest h₁ model =
      AIProviderService.buildTogetherRequest h₂ model ∧
    AIProviderService.buildFireworksRequest h₁ model =
      AIProviderService.buildFireworksRequest h₂ model ∧
    AIProviderService.buildHuggingFaceInput h₁ =
      AIProviderService.buildHuggingFaceInput h₂ ∧
    AIProviderService.buildMistralMessages h₁ =
      AIProviderService.buildMistralMessages h₂ ∧
    AIProviderService.buildCohereRequest h₁ model =
      AIProviderService.buildCohereRequest h₂ model ∧
    AIProviderService.sendMessage "cohere" key h₁ (some model) up =
      AIProviderService.sendMessage "cohere" key h₂ (some model) up := by
  have hwire : h₁.map (fun msg => (⟨msg.role, msg.content⟩ : AIProviderService.WireMsg)) =
      h₂.map (fun msg => (⟨msg.role, msg.content⟩ : AIProviderService.WireMsg)) :=
    map_congr_strip (fun msg => (⟨msg.role, msg.content⟩ : AIProviderService.WireMsg))
      (fun m => rfl) hs
  have hco := buildCohereRequest_congr ((AIProviderService.selectModel (some model) "cohere").getD "") hs
  refine ⟨?_, ?_, ?_, ?_, ?_, ?_, ?_, ?_, ?_, ?_⟩
  · simp only [AIProviderService.buildCerebrasRequest, hwire]
  · simp only [AIProviderService.buildSambanovaRequest, hwire]
  · simp only [AIProviderService.buildXAIRequest, hwire]
  · simp only [AIProviderService.buildPerplexityRequest, hwire]
  · simp only [AIProviderService.buildTogetherRequest, hwire]
  · simp only [AIProviderService.buildFireworksRequest, hwire]
  · simp only [AIProviderService.buildHuggingFaceInput,
      map_congr_strip (fun msg =>
        if msg.role == "user" then "Human: " ++ msg.content
        else "Assistant: " ++ msg.content) (fun m => rfl) hs]
  · exact map_congr_strip (fun msg => (⟨msg.role, msg.content⟩ : AIProviderService.WireMsg))
      (fun m => rfl) hs
  · exact buildCohereRequest_congr model hs
  · rw [sendMessage_cohere_eq, sendMessage_cohere_eq, hco]

/-- Witness for C9: a one-turn history with an attached image against the
same history with the image removed. -/
theorem imageless_providers_ignore_images_witness :
    AIProviderService.buildCerebrasRequest [⟨"user", "look at this", some ["aGVsbG8="]⟩] "llama3.1-8b" =
      AIProviderService.buildCerebrasRequest [⟨"user", "look at this", none⟩] "llama3.1-8b" ∧
    AIProviderService.buildHuggingFaceInput [⟨"user", "look at this", some ["aGVsbG8="]⟩] =
      AIProviderService.buildHuggingFaceInput [⟨"user", "look at this", none⟩] ∧
    AIProviderService.buildCohereRequest [⟨"user", "look at this", some ["aGVsbG8="]⟩] "command-r" =
      AIProviderService.buildCohereRequest [⟨"user", "look at this", none⟩] "command-r" ∧
    AIProviderService.sendMessage "cohere" "sk-co" [⟨"user", "look at this", some ["aGVsbG8="]⟩]
        (some "command-r") (.ok ⟨"reply", none⟩) =
      AIProviderService.sendMessage "cohere" "sk-co" [⟨"user", "look at this", none⟩]
        (some "command-r") (.ok ⟨"reply", none⟩) :=
  ⟨(imageless_providers_ignore_images [⟨"user", "look at this", some ["aGVsbG8="]⟩]
      [⟨"user", "look at this", none⟩] "llama3.1-8b" "sk-co" (.ok ⟨"reply", none⟩) rfl).1,
   (imageless_providers_ignore_images [⟨"user", "look at this", some ["aGVsbG8="]⟩]
      [⟨"user", "look at this", none⟩] "llama3.1-8b" "sk-co" (.ok ⟨"reply", none⟩) rfl).2.2.2.2.2.2.1,
   (imageless_providers_ignore_images [⟨"user", "look at this", some ["aGVsbG8="]⟩]
      [⟨"user", "look at this", none⟩] "command-r" "sk-co" (.ok ⟨"reply", none⟩) rfl).2.2.2.2.2.2.2.2.1,
   (imageless_providers_ignore_images [⟨"user", "look at this", some ["aGVsbG8="]⟩]
      [⟨"user", "look at this", none⟩] "command-r" "sk-co" (.ok ⟨"reply", none⟩) rfl).2.2.2.2.2.2.2.2.2⟩
